import Mathlib

/-!
Shallow embedding of the counter service in src/db.go (package main of the
caas repository). The storage cluster and the gocql driver are external
collaborators; they are modelled by an explicit per-attempt environment
(`AttemptBehavior`) and by the documented contracts of the driver pieces the
code uses (`SimpleRetryPolicy.Attempt`, per-attempt observer callbacks,
`Query.MapScan`). Machine integers are modelled as `Int`/`Nat`; wall-clock
instants as `Rat` seconds, since the code only subtracts and scales them.
-/

set_option autoImplicit false

namespace Caas

/-- Modelled from the spec: a Go error value, identified with the message
string carried by the error (section 7 of the spec describes the error
taxonomy by wrapped message content; src/db.go only ever formats errors with
fmt.Errorf and never inspects them structurally). -/
abbrev GoError := String

/-- Models the gocql driver constant ErrNotFound, returned by Query.MapScan
when the query selects no rows. -/
def errNotFound : GoError := "not found"

/-- Models a dynamically typed Go value as delivered by the driver into a
map from column name to empty-interface value. A counter column is delivered
as a 64-bit signed integer (vInt64); a text column as a string. vNull models
a nil interface value (missing key or null column). -/
inductive GoValue where
  | vInt64 (v : Int)
  | vString (s : String)
  | vNull
deriving DecidableEq, Repr

/-- One result row, as gocql MapScan delivers it: column name to value. -/
abbrev Row := List (String × GoValue)

/-- Go map indexing m[key]: the zero value (nil interface, vNull) when the
key is absent. -/
def lookupGoMap (m : Row) (key : String) : GoValue :=
  match m.find? (fun p => p.1 == key) with
  | some p => p.2
  | none => GoValue.vNull

/-- Models the unguarded Go type assertion x.(int64) at src/db.go:117:
some value on success, none modelling the runtime panic on any other
dynamic type. -/
def assertInt64 : GoValue → Option Int
  | GoValue.vInt64 v => some v
  | _ => none

/-- QueryStat, one observed attempt against the storage cluster. The Go
declaration is outside src/db.go; fields are reconstructed from the
composite literal in queryLogger.ObserveQuery (src/db.go:130) and section 3
of the spec. The Time field is modelled as the numeric millisecond value
that the Go code formats into the string with the fixed miliseconds
suffix. -/
structure QueryStat where
  Statement : String
  Attempts : Nat
  Time : Rat
  Host : String
  Rows : Nat
deriving DecidableEq, Repr

/-- Counter, the externally visible result of an increment request. The Go
declaration is outside src/db.go; fields are reconstructed from the
composite literal in IncrementAndGet (src/db.go:100) and section 3 of the
spec. -/
structure Counter where
  Name : String
  Value : Int
  Host : String
  DBStats : List QueryStat
deriving DecidableEq, Repr

/-- Go zero value of Counter, written as an empty composite literal in both
error returns of IncrementAndGet. -/
def zeroCounter : Counter := { Name := "", Value := 0, Host := "", DBStats := [] }

/-- Models the metrics snapshot gocql passes to the observer: the cumulative
attempt count of the logical query at observation time. -/
structure QueryMetrics where
  Attempts : Nat
deriving DecidableEq, Repr

/-- Models gocql ObservedQuery as used by src/db.go:126: statement text,
metrics snapshot, start and end instants (Rat seconds), connect address of
the contacted host, and the row count of the attempt. -/
structure ObservedQuery where
  Statement : String
  Metrics : QueryMetrics
  Start : Rat
  End : Rat
  HostAddr : String
  Rows : Nat
deriving DecidableEq, Repr

/-- queryLogger from src/db.go:120, the per-request observer holding the
ordered stat log. A nil Go slice and an empty one are both the empty
list. -/
structure queryLogger where
  stats : List QueryStat
deriving DecidableEq, Repr

/-- ObserveQuery from src/db.go:126: build one QueryStat from the observed
query, converting the elapsed seconds to milliseconds, and append it to the
log. The nil check in the Go code only replaces a nil slice by an empty one
and is the identity in the list model. -/
def queryLogger.ObserveQuery (q : queryLogger) (query : ObservedQuery) : queryLogger :=
  { stats := q.stats ++
      [{ Statement := query.Statement
         Attempts := query.Metrics.Attempts
         Time := (query.End - query.Start) * 1000
         Host := query.HostAddr
         Rows := query.Rows }] }

/-- gocql SimpleRetryPolicy: NumRetries additional attempts are allowed per
logical query. -/
structure SimpleRetryPolicy where
  NumRetries : Nat
deriving DecidableEq, Repr

/-- Models the gocql driver decision function: retry while the cumulative
attempt count does not exceed NumRetries. -/
def SimpleRetryPolicy.Attempt (s : SimpleRetryPolicy) (attempts : Nat) : Bool :=
  decide (attempts ≤ s.NumRetries)

/-- Consistency levels used by src/db.go: the cluster default (Quorum) and
the explicit One on the read-back query. -/
inductive Consistency where
  | one
  | quorum
deriving DecidableEq, Repr

/-- gocql NewCluster leaves the consistency at its default, Quorum; the
increment query in src/db.go never overrides it. -/
def clusterDefaultConsistency : Consistency := Consistency.quorum

/-- Statement text of the increment sub-operation, src/db.go:104. -/
def updateStmt : String := "UPDATE counter SET value=value+1 WHERE name = ?"

/-- Statement text of the read-back sub-operation, src/db.go:111. -/
def selectStmt : String := "SELECT name, value FROM counter WHERE name=? LIMIT 1"

/-- A configured gocql query as built by src/db.go: statement text, bound
values, consistency level and retry policy. -/
structure Query where
  stmt : String
  values : List String
  consistency : Consistency
  policy : SimpleRetryPolicy

/-- The query built by increment (src/db.go:103): the UPDATE statement bound
to the counter name, cluster-default consistency, SimpleRetryPolicy with
NumRetries 5. -/
def incrementQuery (name : String) : Query :=
  { stmt := updateStmt
    values := [name]
    consistency := clusterDefaultConsistency
    policy := { NumRetries := 5 } }

/-- The query built by get (src/db.go:109): the SELECT statement bound to
the counter name, consistency One, SimpleRetryPolicy with NumRetries 5. -/
def getQuery (name : String) : Query :=
  { stmt := selectStmt
    values := [name]
    consistency := Consistency.one
    policy := { NumRetries := 5 } }

/-- Behavior of one physical attempt of the storage cluster: which node
answers, the start and end instants of the attempt, the error if the attempt
fails, and the rows it returns if it succeeds. -/
structure AttemptBehavior where
  host : String
  start : Rat
  stop : Rat
  err : Option GoError
  rows : List Row
deriving DecidableEq, Repr

/-- The ObservedQuery the driver hands to the observer for one attempt. -/
def observedOf (q : Query) (attempts : Nat) (b : AttemptBehavior) : ObservedQuery :=
  { Statement := q.stmt
    Metrics := { Attempts := attempts }
    Start := b.start
    End := b.stop
    HostAddr := b.host
    Rows := b.rows.length }

/-- The QueryStat the observer records for one attempt. -/
def statOf (q : Query) (attempts : Nat) (b : AttemptBehavior) : QueryStat :=
  { Statement := q.stmt
    Attempts := attempts
    Time := (b.stop - b.start) * 1000
    Host := b.host
    Rows := b.rows.length }

/-- Models the gocql execution loop for one logical query: run attempt k
against the environment, invoke the observer with the cumulative attempt
count k+1, and on failure consult the retry policy; the fuel argument is a
structural bound on the number of retries, always instantiated so that the
policy, not the fuel, stops the loop. -/
def runQueryAux (q : Query) (env : Nat → AttemptBehavior) :
    Nat → Nat → queryLogger → queryLogger × Except GoError (List Row)
  | 0, k, obs =>
    match (env k).err with
    | none => (obs.ObserveQuery (observedOf q (k + 1) (env k)), Except.ok (env k).rows)
    | some e => (obs.ObserveQuery (observedOf q (k + 1) (env k)), Except.error e)
  | fuel + 1, k, obs =>
    match (env k).err with
    | none => (obs.ObserveQuery (observedOf q (k + 1) (env k)), Except.ok (env k).rows)
    | some e =>
      if q.policy.Attempt (k + 1) then
        runQueryAux q env fuel (k + 1) (obs.ObserveQuery (observedOf q (k + 1) (env k)))
      else (obs.ObserveQuery (observedOf q (k + 1) (env k)), Except.error e)

/-- Execute one logical query: first attempt plus up to NumRetries retries,
as decided by SimpleRetryPolicy.Attempt. -/
def runQuery (q : Query) (env : Nat → AttemptBehavior) (obs : queryLogger) :
    queryLogger × Except GoError (List Row) :=
  runQueryAux q env (q.policy.NumRetries + 1) 0 obs

/-- Models the gocql Query.MapScan contract as used at src/db.go:114: the
query error if execution failed, ErrNotFound if the query selected no rows,
otherwise the first selected row as a map. -/
def mapScan : Except GoError (List Row) → Except GoError Row
  | Except.error e => Except.error e
  | Except.ok [] => Except.error errNotFound
  | Except.ok (m :: _) => Except.ok m

/-- increment from src/db.go:103: execute the UPDATE query under the
observer and the retry policy; Exec discards rows and returns only the
error. -/
def increment (name : String) (env : Nat → AttemptBehavior) (observer : queryLogger) :
    queryLogger × Option GoError :=
  match runQuery (incrementQuery name) env observer with
  | (obs, Except.ok _) => (obs, none)
  | (obs, Except.error e) => (obs, some e)

/-- get from src/db.go:109: execute the SELECT query at consistency One
under the observer and the retry policy, MapScan the result, and extract the
value entry with an unguarded int64 type assertion. A none result models the
assertion panic; some carries the normal Go return. -/
def get (name : String) (env : Nat → AttemptBehavior) (observer : queryLogger) :
    queryLogger × Option (Except GoError Int) :=
  match runQuery (getQuery name) env observer with
  | (obs, r) =>
    match mapScan r with
    | Except.error e => (obs, some (Except.error e))
    | Except.ok m =>
      match assertInt64 (lookupGoMap m ("value")) with
      | some v => (obs, some (Except.ok v))
      | none => (obs, none)

/-- cassandraDB from src/db.go:17; the session handle is abstracted into the
per-call attempt environments. -/
structure cassandraDB where
  hostname : String
deriving DecidableEq, Repr

/-- Models Go strconv quoting as used by the fmt %q verb: the argument in
double quotes, with the quote and backslash characters backslash-escaped
(other escaping classes do not occur in the properties proved here and are
kept literal). -/
def goQuoteChar (c : Char) : List Char :=
  if c = '"' then ['\\', '"'] else if c = '\\' then ['\\', '\\'] else [c]

/-- Go fmt %q applied to a string. -/
def goQuote (s : String) : String :=
  String.mk ('"' :: (s.toList.map goQuoteChar).flatten ++ ['"'])

/-- The error built at src/db.go:92 when the increment sub-operation
fails. -/
def incrementErrMsg (name cause : String) : String :=
  "error incrementing " ++ goQuote name ++ ": " ++ cause

/-- The error built at src/db.go:97 when the read-back sub-operation
fails. -/
def getErrMsg (name cause : String) : String :=
  "error getting " ++ goQuote name ++ ": " ++ cause

/-- IncrementAndGet from src/db.go:88, instrumented to also return the final
observer so the stat log is visible on the error paths (the Go code discards
it there). A fresh observer is created, the increment runs first, and only
on its success does the read-back run with the same observer. A none second
component models the panic propagating out of get. -/
def IncrementAndGetAux (c : cassandraDB) (counterName : String)
    (incEnv readEnv : Nat → AttemptBehavior) :
    queryLogger × Option (Counter × Option GoError) :=
  match increment counterName incEnv { stats := [] } with
  | (obs1, some e) => (obs1, some (zeroCounter, some (incrementErrMsg counterName e)))
  | (obs1, none) =>
    match get counterName readEnv obs1 with
    | (obs2, none) => (obs2, none)
    | (obs2, some (Except.error e)) =>
      (obs2, some (zeroCounter, some (getErrMsg counterName e)))
    | (obs2, some (Except.ok v)) =>
      (obs2, some ({ Name := counterName, Value := v, Host := c.hostname,
                     DBStats := obs2.stats }, none))

/-- IncrementAndGet from src/db.go:88: the pair of returned Counter and
error; none models a panic escaping the call. -/
def IncrementAndGet (c : cassandraDB) (counterName : String)
    (incEnv readEnv : Nat → AttemptBehavior) : Option (Counter × Option GoError) :=
  (IncrementAndGetAux c counterName incEnv readEnv).2

/-- Keyspace bootstrap statement, src/db.go:67. -/
def keyspaceCQL : String :=
  "CREATE KEYSPACE IF NOT EXISTS caas WITH replication = \x7b\x27class\x27: \x27SimpleStrategy\x27, \x27replication_factor\x27 : 3\x7d;"

/-- Table bootstrap statement, src/db.go:78. -/
def tableCQL : String :=
  "CREATE TABLE IF NOT EXISTS counter (name text, value counter, PRIMARY KEY (name))"

/-- createKeyspace from src/db.go:59: open a bootstrap session (whose
failure is propagated) and execute the keyspace statement, propagating its
error. -/
def createKeyspace (sessionErr : Option GoError) (exec : String → Option GoError) :
    Option GoError :=
  match sessionErr with
  | some e => some e
  | none => exec keyspaceCQL

/-- createTables from src/db.go:77: execute the table statement on the
long-lived session, propagating its error. -/
def createTables (exec : String → Option GoError) : Option GoError :=
  exec tableCQL

/-- Character-list prefix test used by the substring search below. -/
def charsMatchAt : List Char → List Char → Bool
  | [], _ => true
  | _ :: _, [] => false
  | p :: ps, c :: cs => p == c && charsMatchAt ps cs

/-- Character-list substring test. -/
def charsHaveSub (pat : List Char) : List Char → Bool
  | [] => charsMatchAt pat []
  | c :: cs => charsMatchAt pat (c :: cs) || charsHaveSub pat cs

/-- Substring test on strings, used to state which clauses the bootstrap
statements contain. -/
def strHasSub (s pat : String) : Bool := charsHaveSub pat.toList s.toList

/-- Decidable test that the value entry of a row carries an int64, the shape
the unguarded type assertion in get requires. -/
def rowHasInt64Value (r : Row) : Bool :=
  match assertInt64 (lookupGoMap r ("value")) with
  | some _ => true
  | none => false

/-- Sample host record for concrete witnesses. -/
def db0 : cassandraDB := { hostname := "svc-host-1" }

/-- Sample row, as the read-back would deliver it for a counter at 7. -/
def sampleRow : Row := [("name", GoValue.vString ("page_views")), ("value", GoValue.vInt64 7)]

/-- Environment whose every attempt succeeds and returns the sample row. -/
def okEnv : Nat → AttemptBehavior :=
  fun _ => { host := "10.0.0.1", start := 0, stop := 1, err := none, rows := [sampleRow] }

/-- Error of attempt j in the always-failing environment. -/
def failErr : Nat → GoError := fun j => "boom" ++ toString j

/-- Environment whose every attempt fails, with a distinct error per
attempt. -/
def failEnv : Nat → AttemptBehavior :=
  fun j => { host := "10.0.0.2", start := 0, stop := 1, err := some (failErr j), rows := [] }

/-- Environment whose every attempt succeeds but returns no rows. -/
def emptyEnv : Nat → AttemptBehavior :=
  fun _ => { host := "10.0.0.3", start := 0, stop := 1, err := none, rows := [] }

/-- Observing one attempt appends exactly the stat of that attempt. -/
theorem observe_statOf (obs : queryLogger) (q : Query) (a : Nat) (b : AttemptBehavior) :
    (obs.ObserveQuery (observedOf q a b)).stats = obs.stats ++ [statOf q a b] := rfl

/-- The execution loop only ever appends to the log it is given, and every
appended entry carries the statement text of the query being run. -/
theorem runQueryAux_stats (q : Query) (env : Nat → AttemptBehavior) :
    ∀ (fuel k : Nat) (obs : queryLogger),
      ∃ l, (runQueryAux q env fuel k obs).1.stats = obs.stats ++ l ∧
        ∀ s ∈ l, s.Statement = q.stmt := by
  intro fuel
  induction fuel with
  | zero =>
    intro k obs
    refine ⟨[statOf q (k + 1) (env k)], ?_, ?_⟩
    · unfold runQueryAux
      cases hE : (env k).err <;> simp [observe_statOf]
    · intro s hs
      simp only [List.mem_singleton] at hs
      subst hs
      rfl
  | succ fuel ih =>
    intro k obs
    unfold runQueryAux
    cases hE : (env k).err with
    | none =>
      refine ⟨[statOf q (k + 1) (env k)], by simp [observe_statOf], ?_⟩
      intro s hs
      simp only [List.mem_singleton] at hs
      subst hs
      rfl
    | some e =>
      cases hA : q.policy.Attempt (k + 1) with
      | false =>
        refine ⟨[statOf q (k + 1) (env k)], by simp [observe_statOf], ?_⟩
        intro s hs
        simp only [List.mem_singleton] at hs
        subst hs
        rfl
      | true =>
        simp only [hA, if_true]
        obtain ⟨l, hl, hstmt⟩ := ih (k + 1) (obs.ObserveQuery (observedOf q (k + 1) (env k)))
        refine ⟨[statOf q (k + 1) (env k)] ++ l, ?_, ?_⟩
        · rw [hl, observe_statOf, List.append_assoc]
        · intro s hs
          rcases List.mem_append.mp hs with hs | hs
          · simp only [List.mem_singleton] at hs
            subst hs
            rfl
          · exact hstmt s hs

/-- Rows returned by the execution loop are rows some attempt of the
environment produced. -/
theorem runQueryAux_ok (q : Query) (env : Nat → AttemptBehavior) :
    ∀ (fuel k : Nat) (obs : queryLogger) (rows : List Row),
      (runQueryAux q env fuel k obs).2 = Except.ok rows → ∃ j, rows = (env j).rows := by
  intro fuel
  induction fuel with
  | zero =>
    intro k obs rows h
    unfold runQueryAux at h
    cases hE : (env k).err with
    | none =>
      rw [hE] at h
      simp only at h
      exact ⟨k, (Except.ok.inj h).symm⟩
    | some e =>
      rw [hE] at h
      simp at h
  | succ fuel ih =>
    intro k obs rows h
    unfold runQueryAux at h
    cases hE : (env k).err with
    | none =>
      rw [hE] at h
      simp only at h
      exact ⟨k, (Except.ok.inj h).symm⟩
    | some e =>
      rw [hE] at h
      cases hA : q.policy.Attempt (k + 1) with
      | false =>
        rw [hA] at h
        simp at h
      | true =>
        rw [hA] at h
        simp only [if_true] at h
        exact ih (k + 1) _ rows h

/-- If every allowed attempt fails, the loop performs exactly the remaining
attempts, ends with the error of the last allowed attempt, and the fuel
never intervenes when it matches the retry budget. -/
theorem runQueryAux_allFail (q : Query) (env : Nat → AttemptBehavior) (E : Nat → GoError)
    (h : ∀ j, j ≤ q.policy.NumRetries → (env j).err = some (E j)) :
    ∀ (f k : Nat) (obs : queryLogger), k + f = q.policy.NumRetries →
      (runQueryAux q env (f + 1) k obs).2 = Except.error (E q.policy.NumRetries) ∧
      (runQueryAux q env (f + 1) k obs).1.stats.length = obs.stats.length + (f + 1) := by
  intro f
  induction f with
  | zero =>
    intro k obs hk
    simp only [Nat.add_zero] at hk
    subst hk
    have hA : q.policy.Attempt (q.policy.NumRetries + 1) = false := by
      simp [SimpleRetryPolicy.Attempt]
    unfold runQueryAux
    rw [h _ (Nat.le_refl _), hA]
    simp [observe_statOf]
  | succ f ih =>
    intro k obs hk
    have hkle : k ≤ q.policy.NumRetries := by omega
    have hA : q.policy.Attempt (k + 1) = true := by
      simp only [SimpleRetryPolicy.Attempt, decide_eq_true_eq]
      omega
    unfold runQueryAux
    rw [h k hkle, hA]
    simp only [if_true]
    obtain ⟨h1, h2⟩ := ih (k + 1) (obs.ObserveQuery (observedOf q (k + 1) (env k))) (by omega)
    refine ⟨h1, ?_⟩
    rw [h2, observe_statOf]
    simp
    omega

/-- When the first attempt succeeds, the loop stops there: one observed
attempt and the rows of attempt zero. -/
theorem runQuery_success0 (q : Query) (env : Nat → AttemptBehavior) (obs : queryLogger)
    (h : (env 0).err = none) :
    runQuery q env obs = (obs.ObserveQuery (observedOf q 1 (env 0)), Except.ok (env 0).rows) := by
  unfold runQuery runQueryAux
  rw [h]

/-- increment reduces to the pair form when its query fails. -/
theorem increment_of_error (name : String) (env : Nat → AttemptBehavior) (obs : queryLogger)
    (o : queryLogger) (e : GoError)
    (hR : runQuery (incrementQuery name) env obs = (o, Except.error e)) :
    increment name env obs = (o, some e) := by
  unfold increment
  rw [hR]

/-- increment reduces to a success when its query succeeds. -/
theorem increment_of_ok (name : String) (env : Nat → AttemptBehavior) (obs : queryLogger)
    (o : queryLogger) (rows : List Row)
    (hR : runQuery (incrementQuery name) env obs = (o, Except.ok rows)) :
    increment name env obs = (o, none) := by
  unfold increment
  rw [hR]

/-- get propagates a query error unchanged. -/
theorem get_of_error (name : String) (env : Nat → AttemptBehavior) (obs : queryLogger)
    (o : queryLogger) (e : GoError)
    (hR : runQuery (getQuery name) env obs = (o, Except.error e)) :
    get name env obs = (o, some (Except.error e)) := by
  unfold get
  rw [hR]
  rfl

/-- get turns a successful query with zero rows into the not-found error of
the MapScan contract. -/
theorem get_of_noRows (name : String) (env : Nat → AttemptBehavior) (obs : queryLogger)
    (o : queryLogger)
    (hR : runQuery (getQuery name) env obs = (o, Except.ok [])) :
    get name env obs = (o, some (Except.error errNotFound)) := by
  unfold get
  rw [hR]
  rfl

/-- get on a first row whose value entry is an int64 returns that value. -/
theorem get_of_row (name : String) (env : Nat → AttemptBehavior) (obs : queryLogger)
    (o : queryLogger) (m : Row) (rest : List Row) (v : Int)
    (hR : runQuery (getQuery name) env obs = (o, Except.ok (m :: rest)))
    (hV : lookupGoMap m ("value") = GoValue.vInt64 v) :
    get name env obs = (o, some (Except.ok v)) := by
  unfold get
  rw [hR]
  simp only [mapScan, hV, assertInt64]

/-- IncrementAndGetAux on an increment failure wraps the cause and skips the
read. -/
theorem aux_of_incError (c : cassandraDB) (name : String)
    (incEnv readEnv : Nat → AttemptBehavior) (obs1 : queryLogger) (e : GoError)
    (hI : increment name incEnv { stats := [] } = (obs1, some e)) :
    IncrementAndGetAux c name incEnv readEnv =
      (obs1, some (zeroCounter, some (incrementErrMsg name e))) := by
  unfold IncrementAndGetAux
  rw [hI]

/-- IncrementAndGetAux on a successful increment and a read error wraps the
read cause. -/
theorem aux_of_getError (c : cassandraDB) (name : String)
    (incEnv readEnv : Nat → AttemptBehavior) (obs1 obs2 : queryLogger) (e : GoError)
    (hI : increment name incEnv { stats := [] } = (obs1, none))
    (hG : get name readEnv obs1 = (obs2, some (Except.error e))) :
    IncrementAndGetAux c name incEnv readEnv =
      (obs2, some (zeroCounter, some (getErrMsg name e))) := by
  unfold IncrementAndGetAux
  rw [hI]
  dsimp only
  rw [hG]

/-- IncrementAndGetAux on success of both sub-operations assembles the
Counter from the read value, the name, the host and the final log. -/
theorem aux_of_success (c : cassandraDB) (name : String)
    (incEnv readEnv : Nat → AttemptBehavior) (obs1 obs2 : queryLogger) (v : Int)
    (hI : increment name incEnv { stats := [] } = (obs1, none))
    (hG : get name readEnv obs1 = (obs2, some (Except.ok v))) :
    IncrementAndGetAux c name incEnv readEnv =
      (obs2, some ({ Name := name, Value := v, Host := c.hostname,
                     DBStats := obs2.stats }, none)) := by
  unfold IncrementAndGetAux
  rw [hI]
  dsimp only
  rw [hG]

/-- Under an environment whose first six attempts all fail, increment ends
with the error of the sixth attempt and has observed six attempts. -/
theorem increment_allFail (name : String) (env : Nat → AttemptBehavior)
    (obs : queryLogger) (E : Nat → GoError)
    (h : ∀ j, j ≤ 5 → (env j).err = some (E j)) :
    (increment name env obs).2 = some (E 5) ∧
    (increment name env obs).1 = (runQuery (incrementQuery name) env obs).1 ∧
    (increment name env obs).1.stats.length = obs.stats.length + 6 := by
  have hall := runQueryAux_allFail (incrementQuery name) env E h 5 0 obs (by rfl)
  have hRQ : runQuery (incrementQuery name) env obs
      = runQueryAux (incrementQuery name) env (5 + 1) 0 obs := rfl
  rcases hR : runQuery (incrementQuery name) env obs with ⟨o, r⟩
  rw [← hRQ] at hall
  rw [hR] at hall
  have hr : r = Except.error (E 5) := hall.1
  subst hr
  rw [increment_of_error name env obs o (E 5) hR]
  exact ⟨rfl, rfl, hall.2⟩

/-- Under an environment whose first six attempts all fail, get ends with
the error of the sixth attempt and has observed six attempts. -/
theorem get_allFail (name : String) (env : Nat → AttemptBehavior)
    (obs : queryLogger) (E : Nat → GoError)
    (h : ∀ j, j ≤ 5 → (env j).err = some (E j)) :
    (get name env obs).2 = some (Except.error (E 5)) ∧
    (get name env obs).1.stats.length = obs.stats.length + 6 := by
  have hall := runQueryAux_allFail (getQuery name) env E h 5 0 obs (by rfl)
  have hRQ : runQuery (getQuery name) env obs
      = runQueryAux (getQuery name) env (5 + 1) 0 obs := rfl
  rcases hR : runQuery (getQuery name) env obs with ⟨o, r⟩
  rw [← hRQ] at hall
  rw [hR] at hall
  have hr : r = Except.error (E 5) := hall.1
  subst hr
  rw [get_of_error name env obs o (E 5) hR]
  exact ⟨rfl, hall.2⟩

/-- Claim C4: both sub-operations run under the same bounded retry policy
with a fixed maximum of five additional attempts, and when an environment
fails every allowed attempt, each sub-operation performs exactly six
physical attempts and propagates the error of the last one unchanged. -/
theorem retryPolicy_bounded_lastError (name : String) (env : Nat → AttemptBehavior)
    (obs : queryLogger) (E : Nat → GoError)
    (h : ∀ j, j ≤ 5 → (env j).err = some (E j)) :
    (incrementQuery name).policy = (getQuery name).policy ∧
    (incrementQuery name).policy.NumRetries = 5 ∧
    (increment name env obs).2 = some (E 5) ∧
    (increment name env obs).1.stats.length = obs.stats.length + 6 ∧
    (get name env obs).2 = some (Except.error (E 5)) ∧
    (get name env obs).1.stats.length = obs.stats.length + 6 := by
  obtain ⟨hi1, _, hi3⟩ := increment_allFail name env obs E h
  obtain ⟨hg1, hg2⟩ := get_allFail name env obs E h
  exact ⟨rfl, rfl, hi1, hi3, hg1, hg2⟩

/-- Witness for C4 at a concrete always-failing environment: the propagated
error is exactly the error of the sixth attempt. -/
theorem retryPolicy_bounded_lastError_witness :
    (∀ j, j ≤ 5 → (failEnv j).err = some (failErr j)) ∧
    ((incrementQuery ("page_views")).policy = (getQuery ("page_views")).policy ∧
     (incrementQuery ("page_views")).policy.NumRetries = 5 ∧
     (increment ("page_views") failEnv { stats := [] }).2 = some (failErr 5) ∧
     (increment ("page_views") failEnv { stats := [] }).1.stats.length =
       ({ stats := [] } : queryLogger).stats.length + 6 ∧
     (get ("page_views") failEnv { stats := [] }).2 = some (Except.error (failErr 5)) ∧
     (get ("page_views") failEnv { stats := [] }).1.stats.length =
       ({ stats := [] } : queryLogger).stats.length + 6) :=
  ⟨fun _ _ => rfl,
   retryPolicy_bounded_lastError ("page_views") failEnv { stats := [] } failErr
     (fun _ _ => rfl)⟩

/-- Claim C1: when the increment sub-operation fails after exhausting its
retries, IncrementAndGet returns the zero Counter with an error wrapping the
counter name and the last underlying cause, every entry of the combined log
carries the increment statement (the read statement, a different string, is
never observed), and the whole outcome is independent of the read
environment: the read-back is never attempted. -/
theorem incrementFailure_wrapsName_noRead (c : cassandraDB) (name : String)
    (incEnv readEnv : Nat → AttemptBehavior) (E : Nat → GoError)
    (h : ∀ j, j ≤ 5 → (incEnv j).err = some (E j)) :
    IncrementAndGet c name incEnv readEnv
      = some (zeroCounter, some (incrementErrMsg name (E 5))) ∧
    incrementErrMsg name (E 5)
      = "error incrementing " ++ goQuote name ++ ": " ++ E 5 ∧
    (∀ s ∈ (IncrementAndGetAux c name incEnv readEnv).1.stats,
       s.Statement = updateStmt) ∧
    updateStmt ≠ selectStmt ∧
    (∀ readEnv2, IncrementAndGetAux c name incEnv readEnv
        = IncrementAndGetAux c name incEnv readEnv2) := by
  obtain ⟨h2, h1eq, _⟩ := increment_allFail name incEnv { stats := [] } E h
  rcases hI : increment name incEnv { stats := [] } with ⟨obs1, e1⟩
  rw [hI] at h2 h1eq
  dsimp only at h2 h1eq
  subst h2
  have haux := aux_of_incError c name incEnv readEnv obs1 (E 5) hI
  refine ⟨?_, rfl, ?_, by decide, ?_⟩
  · unfold IncrementAndGet
    rw [haux]
  · rw [haux]
    have hrq : runQuery (incrementQuery name) incEnv { stats := [] }
        = runQueryAux (incrementQuery name) incEnv (5 + 1) 0 { stats := [] } := rfl
    obtain ⟨l, hl, hstmt⟩ :=
      runQueryAux_stats (incrementQuery name) incEnv (5 + 1) 0 { stats := [] }
    intro s hs
    have hobs : obs1.stats = l := by
      rw [h1eq, hrq, hl]
      simp
    rw [hobs] at hs
    exact hstmt s hs
  · intro readEnv2
    rw [haux, aux_of_incError c name incEnv readEnv2 obs1 (E 5) hI]

/-- Witness for C1 at a concrete always-failing increment environment. -/
theorem incrementFailure_wrapsName_noRead_witness :
    (∀ j, j ≤ 5 → (failEnv j).err = some (failErr j)) ∧
    (IncrementAndGet db0 ("page_views") failEnv okEnv
      = some (zeroCounter, some (incrementErrMsg ("page_views") (failErr 5))) ∧
    incrementErrMsg ("page_views") (failErr 5)
      = "error incrementing " ++ goQuote ("page_views") ++ ": " ++ failErr 5 ∧
    (∀ s ∈ (IncrementAndGetAux db0 ("page_views") failEnv okEnv).1.stats,
       s.Statement = updateStmt) ∧
    updateStmt ≠ selectStmt ∧
    (∀ readEnv2, IncrementAndGetAux db0 ("page_views") failEnv okEnv
        = IncrementAndGetAux db0 ("page_views") failEnv readEnv2)) :=
  ⟨fun _ _ => rfl,
   incrementFailure_wrapsName_noRead db0 ("page_views") failEnv okEnv failErr
     (fun _ _ => rfl)⟩

/-- Claim C10: whenever IncrementAndGet returns with a non-nil error, the
Counter it returns is the Go zero value: empty name, zero value, empty host
and empty stat log. -/
theorem error_returns_zero_counter (c : cassandraDB) (name : String)
    (incEnv readEnv : Nat → AttemptBehavior) (ctr : Counter) (e : GoError)
    (h : IncrementAndGet c name incEnv readEnv = some (ctr, some e)) :
    ctr = zeroCounter ∧ ctr.Name = "" ∧ ctr.Value = 0 ∧ ctr.Host = "" ∧
    ctr.DBStats = [] := by
  have hz : ctr = zeroCounter := by
    unfold IncrementAndGet IncrementAndGetAux at h
    rcases hI : increment name incEnv { stats := [] } with ⟨obs1, e1⟩
    rw [hI] at h
    cases e1 with
    | some e' =>
      dsimp only at h
      exact ((Prod.mk.injEq _ _ _ _).mp (Option.some.inj h)).1.symm
    | none =>
      dsimp only at h
      rcases hG : get name readEnv obs1 with ⟨obs2, g⟩
      rw [hG] at h
      rcases g with _ | g
      · simp at h
      · rcases g with ge | gv
        · dsimp only at h
          exact ((Prod.mk.injEq _ _ _ _).mp (Option.some.inj h)).1.symm
        · dsimp only at h
          have := ((Prod.mk.injEq _ _ _ _).mp (Option.some.inj h)).2
          simp at this
  subst hz
  exact ⟨rfl, rfl, rfl, rfl, rfl⟩

/-- Witness for C10 at a concrete failing call. -/
theorem error_returns_zero_counter_witness :
    (IncrementAndGet db0 ("x") failEnv okEnv
      = some (zeroCounter, some (incrementErrMsg ("x") (failErr 5)))) ∧
    (zeroCounter = zeroCounter ∧ zeroCounter.Name = "" ∧ zeroCounter.Value = 0 ∧
     zeroCounter.Host = "" ∧ zeroCounter.DBStats = []) :=
  ⟨by decide,
   error_returns_zero_counter db0 ("x") failEnv okEnv zeroCounter
     (incrementErrMsg ("x") (failErr 5)) (by decide)⟩

/-- Observer state after a first-attempt increment against the row-less
environment, used by concrete witnesses. -/
def obs1c : queryLogger := (increment ("page_views") emptyEnv { stats := [] }).1

/-- Observer state after the read-back against the sample environment. -/
def obs2c : queryLogger := (get ("page_views") okEnv obs1c).1

/-- Observer state after a read-back that succeeds with zero rows. -/
def obs2e : queryLogger := (runQuery (getQuery ("page_views")) emptyEnv obs1c).1

/-- Claim C2: a read-back that succeeds but selects zero rows surfaces as an
error wrapping the counter name and the not-found cause of the driver
MapScan contract, never as a Counter carrying a silently substituted zero
value. -/
theorem zeroRows_readError (c : cassandraDB) (name : String)
    (incEnv readEnv : Nat → AttemptBehavior) (obs1 obs2 : queryLogger)
    (hI : increment name incEnv { stats := [] } = (obs1, none))
    (hR : runQuery (getQuery name) readEnv obs1 = (obs2, Except.ok [])) :
    IncrementAndGet c name incEnv readEnv
      = some (zeroCounter, some (getErrMsg name errNotFound)) ∧
    getErrMsg name errNotFound
      = "error getting " ++ goQuote name ++ ": " ++ "not found" := by
  have hG := get_of_noRows name readEnv obs1 obs2 hR
  have haux := aux_of_getError c name incEnv readEnv obs1 obs2 errNotFound hI hG
  exact ⟨by unfold IncrementAndGet; rw [haux], rfl⟩

/-- Witness for C2 at a concrete environment whose read returns no rows. -/
theorem zeroRows_readError_witness :
    (increment ("page_views") emptyEnv { stats := [] } = (obs1c, none)) ∧
    (runQuery (getQuery ("page_views")) emptyEnv obs1c = (obs2e, Except.ok [])) ∧
    (IncrementAndGet db0 ("page_views") emptyEnv emptyEnv
      = some (zeroCounter, some (getErrMsg ("page_views") errNotFound)) ∧
    getErrMsg ("page_views") errNotFound
      = "error getting " ++ goQuote ("page_views") ++ ": " ++ "not found") :=
  ⟨rfl, rfl,
   zeroRows_readError db0 ("page_views") emptyEnv emptyEnv obs1c obs2e rfl rfl⟩

/-- Claim C3: the read-back path is panic-free: as long as every row the
environment can return carries an int64 value entry, which is the shape the
counter table schema delivers, get always produces a Go-level result; in
particular a zero-row read becomes the not-found error of the MapScan
contract, not a failed type assertion. -/
theorem readPath_panicFree (name : String) (env : Nat → AttemptBehavior)
    (obs : queryLogger)
    (h : ∀ k, ∀ r ∈ (env k).rows, rowHasInt64Value r = true) :
    (get name env obs).2 ≠ none := by
  rcases hR : runQuery (getQuery name) env obs with ⟨obs2, r⟩
  cases r with
  | error e =>
    rw [get_of_error name env obs obs2 e hR]
    simp
  | ok rows =>
    have hr2 : (runQuery (getQuery name) env obs).2 = Except.ok rows := by rw [hR]
    obtain ⟨j, hj⟩ := runQueryAux_ok (getQuery name) env (5 + 1) 0 obs rows hr2
    cases rows with
    | nil =>
      rw [get_of_noRows name env obs obs2 hR]
      simp
    | cons m rest =>
      have hm : m ∈ (env j).rows := by
        rw [← hj]
        exact List.mem_cons_self m rest
      have hint := h j m hm
      unfold rowHasInt64Value at hint
      cases hA : assertInt64 (lookupGoMap m ("value")) with
      | none =>
        rw [hA] at hint
        simp at hint
      | some v =>
        have hV : lookupGoMap m ("value") = GoValue.vInt64 v := by
          cases hL : lookupGoMap m ("value") with
          | vInt64 w =>
            rw [hL] at hA
            simp only [assertInt64, Option.some.injEq] at hA
            rw [hA]
          | vString s =>
            rw [hL] at hA
            simp [assertInt64] at hA
          | vNull =>
            rw [hL] at hA
            simp [assertInt64] at hA
        rw [get_of_row name env obs obs2 m rest v hR hV]
        simp

/-- Witness for C3 at the sample environment. -/
theorem readPath_panicFree_witness :
    (∀ k, ∀ r ∈ (okEnv k).rows, rowHasInt64Value r = true) ∧
    (get ("page_views") okEnv { stats := [] }).2 ≠ none := by
  have hyp : ∀ k, ∀ r ∈ (okEnv k).rows, rowHasInt64Value r = true := by
    intro k r hr
    have hr' : r = sampleRow := by simpa [okEnv] using hr
    rw [hr']
    rfl
  exact ⟨hyp, readPath_panicFree ("page_views") okEnv { stats := [] } hyp⟩

/-- Claim C5: a successful call in which neither sub-operation retries
returns a stat log with exactly two entries, in order the increment attempt
carrying the UPDATE statement and then the read attempt carrying the SELECT
statement. -/
theorem dbStats_two_entries (c : cassandraDB) (name : String)
    (incEnv readEnv : Nat → AttemptBehavior) (m : Row) (rest : List Row) (v : Int)
    (hI0 : (incEnv 0).err = none)
    (hR0 : (readEnv 0).err = none)
    (hRows : (readEnv 0).rows = m :: rest)
    (hV : lookupGoMap m ("value") = GoValue.vInt64 v) :
    IncrementAndGet c name incEnv readEnv
      = some ({ Name := name, Value := v, Host := c.hostname,
                DBStats := [statOf (incrementQuery name) 1 (incEnv 0),
                            statOf (getQuery name) 1 (readEnv 0)] }, none) ∧
    (statOf (incrementQuery name) 1 (incEnv 0)).Statement = updateStmt ∧
    (statOf (getQuery name) 1 (readEnv 0)).Statement = selectStmt := by
  have hRun1 := runQuery_success0 (incrementQuery name) incEnv { stats := [] } hI0
  have hInc := increment_of_ok name incEnv { stats := [] } _ _ hRun1
  have hRun2 := runQuery_success0 (getQuery name) readEnv
      (queryLogger.ObserveQuery { stats := [] } (observedOf (incrementQuery name) 1 (incEnv 0)))
      hR0
  rw [hRows] at hRun2
  have hGet := get_of_row name readEnv _ _ m rest v hRun2 hV
  have haux := aux_of_success c name incEnv readEnv _ _ v hInc hGet
  refine ⟨?_, rfl, rfl⟩
  unfold IncrementAndGet
  rw [haux]
  simp [observe_statOf]

/-- Witness for C5 at a concrete zero-retry success. -/
theorem dbStats_two_entries_witness :
    ((emptyEnv 0).err = none ∧ (okEnv 0).err = none ∧
     (okEnv 0).rows = sampleRow :: [] ∧
     lookupGoMap sampleRow ("value") = GoValue.vInt64 7) ∧
    (IncrementAndGet db0 ("page_views") emptyEnv okEnv
      = some ({ Name := "page_views", Value := 7, Host := db0.hostname,
                DBStats := [statOf (incrementQuery ("page_views")) 1 (emptyEnv 0),
                            statOf (getQuery ("page_views")) 1 (okEnv 0)] }, none) ∧
    (statOf (incrementQuery ("page_views")) 1 (emptyEnv 0)).Statement = updateStmt ∧
    (statOf (getQuery ("page_views")) 1 (okEnv 0)).Statement = selectStmt) :=
  ⟨⟨rfl, rfl, rfl, rfl⟩,
   dbStats_two_entries db0 ("page_views") emptyEnv okEnv sampleRow [] 7
     rfl rfl rfl rfl⟩

/-- Claim C6: a successful call returns a Counter whose Value is the value
the read-back produced, whose Name is the requested name, whose Host is the
service host identity, and whose DBStats is exactly the accumulated log of
the observer shared by both sub-operations. -/
theorem success_counter_fields (c : cassandraDB) (name : String)
    (incEnv readEnv : Nat → AttemptBehavior) (obs1 obs2 : queryLogger) (v : Int)
    (hI : increment name incEnv { stats := [] } = (obs1, none))
    (hG : get name readEnv obs1 = (obs2, some (Except.ok v))) :
    IncrementAndGet c name incEnv readEnv
      = some ({ Name := name, Value := v, Host := c.hostname,
                DBStats := obs2.stats }, none) ∧
    (IncrementAndGetAux c name incEnv readEnv).1 = obs2 := by
  have haux := aux_of_success c name incEnv readEnv obs1 obs2 v hI hG
  exact ⟨by unfold IncrementAndGet; rw [haux], by rw [haux]⟩

/-- Witness for C6 at a concrete successful call. -/
theorem success_counter_fields_witness :
    (increment ("page_views") emptyEnv { stats := [] } = (obs1c, none)) ∧
    (get ("page_views") okEnv obs1c = (obs2c, some (Except.ok 7))) ∧
    (IncrementAndGet db0 ("page_views") emptyEnv okEnv
      = some ({ Name := "page_views", Value := 7, Host := db0.hostname,
                DBStats := obs2c.stats }, none) ∧
    (IncrementAndGetAux db0 ("page_views") emptyEnv okEnv).1 = obs2c) :=
  ⟨rfl, rfl,
   success_counter_fields db0 ("page_views") emptyEnv okEnv obs1c obs2c 7 rfl rfl⟩

/-- increment returns the logger of its query run on every path. -/
theorem increment_fst (name : String) (env : Nat → AttemptBehavior) (obs : queryLogger) :
    (increment name env obs).1 = (runQuery (incrementQuery name) env obs).1 := by
  unfold increment
  rcases runQuery (incrementQuery name) env obs with ⟨o, r⟩
  cases r <;> rfl

/-- get returns the logger of its query run on every path. -/
theorem get_fst (name : String) (env : Nat → AttemptBehavior) (obs : queryLogger) :
    (get name env obs).1 = (runQuery (getQuery name) env obs).1 := by
  unfold get
  rcases runQuery (getQuery name) env obs with ⟨o, r⟩
  dsimp only
  cases hm : mapScan r with
  | error e => rfl
  | ok m =>
    dsimp only
    cases assertInt64 (lookupGoMap m ("value")) <;> rfl

/-- Counterexample to claim C7 as stated: the executed read statement is not
the text with spaces around the equals sign of the WHERE clause. -/
theorem read_statement_counterexample :
    (getQuery ("page_views")).stmt
      ≠ "SELECT name, value FROM counter WHERE name = ? LIMIT 1" := by
  decide

/-- Claim C7 (amended): the read-back executes the SELECT statement exactly
as written in the source, with no spaces around the equals sign of the WHERE
clause, at consistency level One, and under the observer already used by the
increment: on a successful call the returned log is the increment log
extended in place by the read attempts, every added entry carrying the
SELECT statement. -/
theorem read_statement_consistency_observer (c : cassandraDB) (name : String)
    (incEnv readEnv : Nat → AttemptBehavior) (obs1 obs2 : queryLogger) (v : Int)
    (hI : increment name incEnv { stats := [] } = (obs1, none))
    (hG : get name readEnv obs1 = (obs2, some (Except.ok v))) :
    (getQuery name).stmt = "SELECT name, value FROM counter WHERE name=? LIMIT 1" ∧
    (getQuery name).consistency = Consistency.one ∧
    (IncrementAndGetAux c name incEnv readEnv).1 = obs2 ∧
    IncrementAndGet c name incEnv readEnv
      = some ({ Name := name, Value := v, Host := c.hostname,
                DBStats := obs2.stats }, none) ∧
    (∃ l2, obs2.stats = obs1.stats ++ l2 ∧
       (∀ s ∈ obs1.stats, s.Statement = updateStmt) ∧
       (∀ s ∈ l2, s.Statement = selectStmt)) := by
  have haux := aux_of_success c name incEnv readEnv obs1 obs2 v hI hG
  have h1 : (increment name incEnv { stats := [] }).1 = obs1 := by rw [hI]
  have h2 : (get name readEnv obs1).1 = obs2 := by rw [hG]
  have hobs1 : obs1 = (runQueryAux (incrementQuery name) incEnv (5 + 1) 0
      { stats := [] }).1 := by
    rw [← h1, increment_fst]
    rfl
  have hobs2 : obs2 = (runQueryAux (getQuery name) readEnv (5 + 1) 0 obs1).1 := by
    rw [← h2, get_fst]
    rfl
  obtain ⟨l1, hl1, hs1⟩ :=
    runQueryAux_stats (incrementQuery name) incEnv (5 + 1) 0 { stats := [] }
  obtain ⟨l2, hl2, hs2⟩ := runQueryAux_stats (getQuery name) readEnv (5 + 1) 0 obs1
  refine ⟨rfl, rfl, by rw [haux], by unfold IncrementAndGet; rw [haux], l2, ?_, ?_, hs2⟩
  · rw [hobs2]
    exact hl2
  · intro s hs
    have hstats : obs1.stats = l1 := by
      rw [hobs1, hl1]
      simp
    rw [hstats] at hs
    exact hs1 s hs

/-- Witness for the amended C7 at a concrete successful call. -/
theorem read_statement_consistency_observer_witness :
    (increment ("page_views") emptyEnv { stats := [] } = (obs1c, none)) ∧
    (get ("page_views") okEnv obs1c = (obs2c, some (Except.ok 7))) ∧
    ((getQuery ("page_views")).stmt
        = "SELECT name, value FROM counter WHERE name=? LIMIT 1" ∧
    (getQuery ("page_views")).consistency = Consistency.one ∧
    (IncrementAndGetAux db0 ("page_views") emptyEnv okEnv).1 = obs2c ∧
    IncrementAndGet db0 ("page_views") emptyEnv okEnv
      = some ({ Name := "page_views", Value := 7, Host := db0.hostname,
                DBStats := obs2c.stats }, none) ∧
    (∃ l2, obs2c.stats = obs1c.stats ++ l2 ∧
       (∀ s ∈ obs1c.stats, s.Statement = updateStmt) ∧
       (∀ s ∈ l2, s.Statement = selectStmt))) :=
  ⟨rfl, rfl,
   read_statement_consistency_observer db0 ("page_views") emptyEnv okEnv obs1c obs2c 7
     rfl rfl⟩

/-- Claim C8: createKeyspace issues exactly the keyspace statement on the
bootstrap session and createTables exactly the table statement on the
long-lived session, both guarded by IF NOT EXISTS so bootstrap is safe to
run on every process start; the keyspace statement requests replication
factor 3 under the simple strategy, and the table statement declares the
text column name as the sole primary key and the counter column value. -/
theorem schema_bootstrap_statements :
    (∀ exec : String → Option GoError, createKeyspace none exec = exec keyspaceCQL) ∧
    (∀ exec : String → Option GoError, createTables exec = exec tableCQL) ∧
    (∀ exec : String → Option GoError, ∀ e : GoError,
       createKeyspace (some e) exec = some e) ∧
    strHasSub keyspaceCQL ("CREATE KEYSPACE IF NOT EXISTS") = true ∧
    strHasSub keyspaceCQL ("\x27replication_factor\x27 : 3") = true ∧
    strHasSub keyspaceCQL ("\x27class\x27: \x27SimpleStrategy\x27") = true ∧
    strHasSub tableCQL ("CREATE TABLE IF NOT EXISTS") = true ∧
    strHasSub tableCQL ("name text") = true ∧
    strHasSub tableCQL ("value counter") = true ∧
    strHasSub tableCQL ("PRIMARY KEY (name)") = true :=
  ⟨fun _ => rfl, fun _ => rfl, fun _ _ => rfl, by decide, by decide, by decide,
   by decide, by decide, by decide, by decide⟩

/-- Claim C9: ObserveQuery appends exactly one QueryStat, carrying the
statement text, the cumulative attempt count of the metrics snapshot, the
elapsed time converted to milliseconds, the contacted node address and the
row count, at the end of the log, and the prior entries are untouched. -/
theorem observeQuery_appends_one (l : queryLogger) (q : ObservedQuery) :
    (l.ObserveQuery q).stats =
      l.stats ++ [{ Statement := q.Statement
                    Attempts := q.Metrics.Attempts
                    Time := (q.End - q.Start) * 1000
                    Host := q.HostAddr
                    Rows := q.Rows }] ∧
    (l.ObserveQuery q).stats.length = l.stats.length + 1 ∧
    (l.ObserveQuery q).stats.take l.stats.length = l.stats := by
  refine ⟨rfl, by simp [queryLogger.ObserveQuery], ?_⟩
  simp [queryLogger.ObserveQuery]

end Caas
